import Mathlib

/-!
Shallow embedding of the Telegram homework bot (src/telegram_teacher_bot.py):
its data model (students, tasks, submissions, settings tables), the
submission-to-task resolver, the schedule command, the broadcast send loop,
the scheduled-job firing, the stats partition, and student registration.
Theorems settle the individual specification claims against these
definitions.
-/

namespace TelegramTeacherBot

/-! ### Python string helpers, implemented structurally over `List Char` -/

/-- ASCII lowercase of one character (Python `str.lower` on ASCII text). -/
def charLower (c : Char) : Char :=
  if 'A' ≤ c && c ≤ 'Z' then Char.ofNat (c.toNat + 32) else c

/-- Lowercase a character list. -/
def lowerL (l : List Char) : List Char := l.map charLower

/-- Whether the first list is a prefix of the second. -/
def isPrefixL : List Char → List Char → Bool
  | [], _ => true
  | _ :: _, [] => false
  | a :: as, b :: bs => a == b && isPrefixL as bs

/-- The characters after the first occurrence of the nonempty separator
`sep`; `none` when `sep` does not occur. -/
def afterFirst (sep : List Char) : List Char → Option (List Char)
  | [] => none
  | c :: rest =>
    if isPrefixL sep (c :: rest) then some ((c :: rest).drop sep.length)
    else afterFirst sep rest

/-- The prefix up to (excluding) the first occurrence of `sep`; the whole
list when `sep` does not occur. -/
def upToNext (sep : List Char) : List Char → List Char
  | [] => []
  | c :: rest => if isPrefixL sep (c :: rest) then [] else c :: upToNext sep rest

/-- Python `sub in s` substring test (for nonempty `sub`). -/
def containsL (sep l : List Char) : Bool := (afterFirst sep l).isSome

/-- Tokenizer worker for `str.split()` with no arguments. -/
def pyWordsAux : List Char → List Char → List (List Char)
  | [], acc => if acc.isEmpty then [] else [acc.reverse]
  | c :: rest, acc =>
    if c.isWhitespace then
      (if acc.isEmpty then [] else [acc.reverse]) ++ pyWordsAux rest []
    else pyWordsAux rest (c :: acc)

/-- Python `str.split()` with no arguments: whitespace-delimited nonempty
tokens. -/
def pyWords (l : List Char) : List (List Char) := pyWordsAux l []

/-- Python `str.strip()`. -/
def trimL (l : List Char) : List Char :=
  ((l.dropWhile Char.isWhitespace).reverse.dropWhile Char.isWhitespace).reverse

/-- Nonempty and all ASCII digits (Python `str.isdigit()` on ASCII text). -/
def isNatTokenL (l : List Char) : Bool := !l.isEmpty && l.all Char.isDigit

/-- Numeric value of an all-digit character list. -/
def digitsToNat? (l : List Char) : Option Nat :=
  if isNatTokenL l then
    some (l.foldl (fun a c => 10 * a + (c.toNat - 48)) 0)
  else none

/-- Python `int(tok)` on a whitespace-free token: optional sign then
digits; `none` models the `ValueError` raise. -/
def pyIntL? (l : List Char) : Option Int :=
  match l with
  | '-' :: rest => (digitsToNat? rest).map (fun n => -(n : Int))
  | '+' :: rest => (digitsToNat? rest).map (fun n => (n : Int))
  | _ => (digitsToNat? l).map (fun n => (n : Int))

/-- Python `str.split(sep)` for a one-character separator (empty pieces
kept). -/
def splitSepL (sep : Char) : List Char → List (List Char)
  | [] => [[]]
  | c :: rest =>
    if c == sep then [] :: splitSepL sep rest
    else
      match splitSepL sep rest with
      | [] => [[c]]
      | h :: t => (c :: h) :: t

/-- Python `str.split()` returning `String` tokens. -/
def pySplit (s : String) : List String := (pyWords s.data).map String.mk

/-- Python `str.strip()` on a `String`. -/
def pyStrip (s : String) : String := String.mk (trimL s.data)

/-! ### Data model: the four SQLite tables of `init_db` -/

/-- A row of the `students` table (`chat_id` is UNIQUE). -/
structure Student where
  chat_id : Int
  name : String
  registered_at : String
deriving Repr, DecidableEq

/-- A row of the `tasks` table. -/
structure Task where
  id : Int
  title : String
  description : String
  file_path : String
  file_type : String
  created_at : String
  scheduled_cron : Option String
deriving Repr, DecidableEq

/-- A row of the `submissions` table. -/
structure Submission where
  id : Int
  task_id : Int
  student_chat_id : Int
  file_path : String
  file_type : String
  submitted_at : String
deriving Repr, DecidableEq

/-- The whole SQLite database `./data/bot.db`. -/
structure DB where
  students : List Student
  tasks : List Task
  submissions : List Submission
  settings : List (String × String)
deriving Repr, DecidableEq

/-- `get_setting`: `SELECT value FROM settings WHERE key=?`. -/
def get_setting (db : DB) (key : String) : Option String :=
  (db.settings.find? (fun kv => kv.1 == key)).map Prod.snd

/-- `set_setting`: `INSERT OR REPLACE INTO settings`. -/
def set_setting (db : DB) (key value : String) : DB :=
  { db with settings := (db.settings.filter (fun kv => kv.1 != key)) ++ [(key, value)] }

/-- AUTOINCREMENT id for a new `tasks` row. -/
def next_task_id (db : DB) : Int :=
  db.tasks.foldl (fun m t => max m t.id) 0 + 1

/-- AUTOINCREMENT id for a new `submissions` row. -/
def next_submission_id (db : DB) : Int :=
  db.submissions.foldl (fun m s => max m s.id) 0 + 1

/-! ### Scheduler state (APScheduler job registry) -/

/-- A `CronTrigger(minute=..., hour=..., day=..., month=..., day_of_week=...)`. -/
structure CronTrigger where
  minute : String
  hour : String
  day : String
  month : String
  day_of_week : String
deriving Repr, DecidableEq

/-- A live APScheduler job: its string id, its trigger, and the `task_id`
captured by the `job` closure in `cmd_schedule_task`. -/
structure Job where
  id : String
  trigger : CronTrigger
  task_id : Int
deriving Repr, DecidableEq

/-- Whole-process state: the database, the artifact files saved under
`./data/files`, and the scheduler's live jobs. -/
structure BotState where
  db : DB
  files : List String
  jobs : List Job
deriving Repr, DecidableEq

/-- Fresh state at process start: empty tables, no files, no jobs. -/
def initialState : BotState :=
  { db := { students := [], tasks := [], submissions := [], settings := [] },
    files := [], jobs := [] }

/-- `TEACHER_CHAT_ID or get_setting('teacher_chat_id')`: the environment
variable (when set and nonempty) takes precedence over the stored setting. -/
def effective_teacher (env : Option String) (db : DB) : Option String :=
  match env with
  | some s => some s
  | none => get_setting db "teacher_chat_id"

/-- `teacher_id and str(user.id) == str(teacher_id)`: whether the sender is
the configured teacher. -/
def is_teacher_of (env : Option String) (db : DB) (uid : Int) : Bool :=
  match effective_teacher env db with
  | some t => toString uid == t
  | none => false

/-! ### Submission resolver (`handle_file`, lines 255-269) -/

/-- Signal (a): `task: <id>` in the caption — `int(caption.lower()
.split('task:')[1].strip().split()[0])`, `None` when anything raises.
`split('task:')[1]` is the piece between the first and second occurrence. -/
def parse_caption_task_id (caption : String) : Option Int :=
  let lc := lowerL caption.data
  let sep := "task:".data
  match afterFirst sep lc with
  | none => none
  | some rest =>
    match pyWords (trimL (upToNext sep rest)) with
    | tok :: _ => pyIntL? tok
    | [] => none

/-- Signal (b): the reply-target text — when it contains `task id` or
`task:` (case-insensitively), the first purely-numeric whitespace token of
the original text. -/
def parse_reply_task_id (txt : String) : Option Int :=
  let lt := lowerL txt.data
  if containsL "task id".data lt || containsL "task:".data lt then
    ((pyWords txt.data).find? isNatTokenL).bind pyIntL?
  else none

/-- The resolver as written: the caption is parsed first, but the
reply-branch is not guarded on the caption result, so a reply-derived id
overwrites a caption-derived one. -/
def resolve_task_id (caption : String) (reply_text : Option String) : Option Int :=
  let fromCaption := parse_caption_task_id caption
  match reply_text with
  | none => fromCaption
  | some txt =>
    match parse_reply_task_id txt with
    | some n => some n
    | none => fromCaption

/-! ### Inbound file handling (`handle_file`) -/

/-- An inbound event on content types video/audio/voice/document: sender,
optional caption, optional reply-target text, detected media kind, the
local path the artifact is downloaded to, and the event timestamp. -/
structure InboundFile where
  sender_id : Int
  sender_name : String
  caption : Option String
  reply_text : Option String
  file_type : String
  local_path : String
  now : String
deriving Repr, DecidableEq

/-- Outcome reply of `handle_file`. -/
inductive HandleReply
  | taskCreated (task_id : Int)
  | ambiguousPrompt
  | savedThanks
deriving Repr, DecidableEq

/-- `handle_file`: download the artifact to disk first; then either create a
task (teacher) or resolve and store a submission (student).  The resolver
failure path (`if not task_id`) treats both `None` and `0` as failure. -/
def handle_file (env : Option String) (st : BotState) (m : InboundFile) :
    BotState × HandleReply :=
  let is_teacher := is_teacher_of env st.db m.sender_id
  let caption := pyStrip (m.caption.getD "")
  let st1 : BotState := { st with files := st.files ++ [m.local_path] }
  if is_teacher then
    let (title, description) :=
      if containsL ['|'] caption.data then
        (String.mk (trimL (upToNext ['|'] caption.data)),
         String.mk (trimL ((afterFirst ['|'] caption.data).getD [])))
      else if caption != "" then (caption, "")
      else ("Task " ++ m.now, "")
    let tid := next_task_id st1.db
    let task : Task :=
      { id := tid, title := title, description := description,
        file_path := m.local_path, file_type := m.file_type,
        created_at := m.now, scheduled_cron := none }
    ({ st1 with db := { st1.db with tasks := st1.db.tasks ++ [task] } },
      .taskCreated tid)
  else
    match resolve_task_id caption m.reply_text with
    | none => (st1, .ambiguousPrompt)
    | some n =>
      if n == 0 then (st1, .ambiguousPrompt)
      else
        let sub : Submission :=
          { id := next_submission_id st1.db, task_id := n,
            student_chat_id := m.sender_id, file_path := m.local_path,
            file_type := m.file_type, submitted_at := m.now }
        ({ st1 with db := { st1.db with submissions := st1.db.submissions ++ [sub] } },
          .savedThanks)

/-! ### Student registration (`cmd_start`) -/

/-- Outcome reply of `cmd_start`. -/
inductive StartReply
  | teacherInfo
  | registered
deriving Repr, DecidableEq

/-- `INSERT OR IGNORE INTO students` keyed on the UNIQUE `chat_id`. -/
def insert_or_ignore_student (db : DB) (s : Student) : DB :=
  if db.students.any (fun x => x.chat_id == s.chat_id) then db
  else { db with students := db.students ++ [s] }

/-- `cmd_start`: reply-only when the sender matches the configured teacher
(`str(user.id) == str(teacher_id)`); otherwise register as a student. -/
def cmd_start (env : Option String) (st : BotState) (uid : Int)
    (name : String) (now : String) : BotState × StartReply :=
  if is_teacher_of env st.db uid then (st, .teacherInfo)
  else ({ st with db := insert_or_ignore_student st.db ⟨uid, name, now⟩ }, .registered)

/-- `cmd_set_teacher`: store the sender's id as the teacher setting. -/
def cmd_set_teacher (st : BotState) (uid : Int) : BotState :=
  { st with db := set_setting st.db "teacher_chat_id" (toString uid) }

/-! ### Scheduling (`cmd_schedule_task`) -/

/-- Outcome of the schedule operation after argument parsing. -/
inductive ScheduleReply
  | wrongFieldCount
  | fieldParseError
  | scheduled
deriving Repr, DecidableEq

/-- `job_id = f'send_task_{task_id}'`. -/
def job_id_for (tid : Int) : String := "send_task_" ++ toString tid

/-- Modelled from the spec: APScheduler's `CronTrigger` field parsing is
external library code (not in src); the spec says each field accepts the
standard cron wildcard/range/step syntax, so a field is a comma list of
`*`, a number, or a range, each optionally with a `/step`. -/
def cronAtom (l : List Char) : Bool :=
  l == ['*'] || isNatTokenL l ||
  (match splitSepL '-' l with
   | [a, b] => isNatTokenL a && isNatTokenL b
   | _ => false)

/-- Modelled from the spec: one comma-separated piece of a cron field,
optionally carrying a `/step`. -/
def cronStep (l : List Char) : Bool :=
  match splitSepL '/' l with
  | [base] => cronAtom base
  | [base, step] => cronAtom base && isNatTokenL step
  | _ => false

/-- Modelled from the spec: whether `CronTrigger` accepts a field value. -/
def validCronField (s : String) : Bool :=
  (splitSepL ',' s.data).all cronStep

/-- `cmd_schedule_task` after argument parsing: persist the cron string on
the task, remove any existing job for the task id (exception swallowed),
THEN check the field count, and only then build the trigger and install the
job. -/
def cmd_schedule_task (st : BotState) (task_id : Int) (cron_expr : String) :
    BotState × ScheduleReply :=
  let db := { st.db with
    tasks := st.db.tasks.map (fun t =>
      if t.id == task_id then { t with scheduled_cron := some cron_expr } else t) }
  let jid := job_id_for task_id
  let st1 : BotState :=
    { st with db := db, jobs := st.jobs.filter (fun j => j.id != jid) }
  match pySplit cron_expr with
  | [minute, hour, day, month, weekday] =>
    if validCronField minute && validCronField hour && validCronField day &&
        validCronField month && validCronField weekday then
      ({ st1 with jobs := st1.jobs ++
          [{ id := jid, trigger := ⟨minute, hour, day, month, weekday⟩,
             task_id := task_id }] }, .scheduled)
    else (st1, .fieldParseError)
  | _ => (st1, .wrongFieldCount)

/-! ### Distribution (`cmd_send_task` broadcast branch, and the scheduled
`job` body) -/

/-- One Telegram send operation performed for a target. -/
inductive SendKind
  | textMsg
  | chatAction
  | docMsg
deriving Repr, DecidableEq

/-- The sub-sends attempted per target in `cmd_send_task`'s broadcast loop,
by media kind. -/
def target_ops (file_type : String) : List SendKind :=
  if file_type == "video" || file_type == "voice" || file_type == "audio" then
    [.textMsg, .chatAction, .docMsg]
  else [.textMsg, .docMsg]

/-- Attempt a sequence of sends to one chat; a raise aborts the remaining
sub-sends for that chat.  Returns the sends that completed and whether the
whole sequence succeeded. -/
def attempt_sends (env : Int → SendKind → Bool) (chat : Int) :
    List SendKind → List (Int × SendKind) × Bool
  | [] => ([], true)
  | op :: rest =>
    if env chat op then
      let r := attempt_sends env chat rest
      ((chat, op) :: r.1, r.2)
    else ([], false)

/-- Whether every sub-send for a chat succeeds. -/
def target_ok (env : Int → SendKind → Bool) (ops : List SendKind) (chat : Int) : Bool :=
  ops.all (env chat)

/-- The broadcast loop: per student, try the sub-sends inside one
`try/except`; on failure append the chat id to `failed` and continue with
the next student.  Returns the completed-send log and the `failed` list. -/
def loop_send (env : Int → SendKind → Bool) (ops : List SendKind) :
    List Student → List (Int × SendKind) × List Int
  | [] => ([], [])
  | s :: rest =>
    let a := attempt_sends env s.chat_id ops
    let r := loop_send env ops rest
    (a.1 ++ r.1, (if a.2 then [] else [s.chat_id]) ++ r.2)

/-- Outcome reply of `cmd_send_task <id> all`. -/
inductive SendReply
  | notFound
  | broadcastResult (delivered : Int) (failed : Nat)
deriving Repr, DecidableEq

/-- `cmd_send_task <task_id> all`: look the task up, fetch the current
students, run the broadcast loop, and report
`len(students) - len(failed)` delivered and `len(failed)` failed. -/
def cmd_send_task_all (env : Int → SendKind → Bool) (st : BotState)
    (task_id : Int) : SendReply × List (Int × SendKind) :=
  match st.db.tasks.find? (fun t => t.id == task_id) with
  | none => (.notFound, [])
  | some task =>
    let r := loop_send env (target_ops task.file_type) st.db.students
    (.broadcastResult ((st.db.students.length : Int) - r.2.length) r.2.length, r.1)

/-! ### Scheduled firing (the `job` closure in `cmd_schedule_task`) -/

/-- What a firing reports. -/
inductive FireResult
  | missingLogged
  | sent (targets : List Int)
deriving Repr, DecidableEq

/-- A firing of the scheduled job for `task_id`: re-read the task row from
the database; when absent, log `Scheduled task missing` and return (no
exception, jobs untouched); otherwise re-read the current students and send
announcement + document to each, failures logged per target. -/
def fire_scheduled_job (env : Int → SendKind → Bool) (st : BotState)
    (task_id : Int) : BotState × FireResult × List (Int × SendKind) :=
  match st.db.tasks.find? (fun t => t.id == task_id) with
  | none => (st, .missingLogged, [])
  | some _ =>
    let r := loop_send env [.textMsg, .docMsg] st.db.students
    (st, .sent (st.db.students.map (fun s => s.chat_id)), r.1)

/-! ### Stats (`cmd_stats`) -/

/-- At least one submission row for `(task_id, chat_id)`. -/
def has_submitted (db : DB) (tid c : Int) : Bool :=
  db.submissions.any (fun s => s.task_id == tid && s.student_chat_id == c)

/-- The timestamp the python dict `{student_chat_id: submitted_at}` holds
for a chat id: the last matching row wins. -/
def subs_lookup (db : DB) (tid c : Int) : Option String :=
  db.submissions.foldl
    (fun acc s =>
      if s.task_id == tid && s.student_chat_id == c then some s.submitted_at else acc)
    none

/-- The `submitted` list of `cmd_stats`: students whose chat id is a key of
the submissions dict, with name and dict timestamp. -/
def stats_submitted (db : DB) (tid : Int) : List (Int × String × Option String) :=
  (db.students.filter (fun s => has_submitted db tid s.chat_id)).map
    (fun s => (s.chat_id, s.name, subs_lookup db tid s.chat_id))

/-- The `not_submitted` list of `cmd_stats`. -/
def stats_not_submitted (db : DB) (tid : Int) : List (Int × String) :=
  (db.students.filter (fun s => !has_submitted db tid s.chat_id)).map
    (fun s => (s.chat_id, s.name))

/-! ### Reachability and referential integrity -/

/-- States reachable from process start through the state-changing exposed
operations, with the `TEACHER_CHAT_ID` environment value fixed at `env`.
(The send, fire, stats and listing operations do not change this state.) -/
inductive Reachable (env : Option String) : BotState → Prop
  | init : Reachable env initialState
  | start (st : BotState) (uid : Int) (name now : String) :
      Reachable env st → Reachable env (cmd_start env st uid name now).1
  | set_teacher (st : BotState) (uid : Int) :
      Reachable env st → Reachable env (cmd_set_teacher st uid)
  | inbound (st : BotState) (m : InboundFile) :
      Reachable env st → Reachable env (handle_file env st m).1
  | schedule (st : BotState) (tid : Int) (expr : String) :
      Reachable env st → Reachable env (cmd_schedule_task st tid expr).1

/-- Every submission row references an existing task and a registered
student. -/
def SubmissionIntegrity (st : BotState) : Prop :=
  ∀ sub ∈ st.db.submissions,
    (∃ t ∈ st.db.tasks, t.id = sub.task_id) ∧
    (∃ s ∈ st.db.students, s.chat_id = sub.student_chat_id)

/-- At least one submission row for the pair `(tid, c)`. -/
def HasSub (db : DB) (tid c : Int) : Prop :=
  ∃ sub ∈ db.submissions, sub.task_id = tid ∧ sub.student_chat_id = c

/-! ### Concrete states and events used by counterexamples and witnesses -/

/-- Inbound student event whose caption parses to task 7 while the reply
text carries the numeric token 5. -/
def C1event : InboundFile :=
  { sender_id := 42, sender_name := "Bob", caption := some "task: 7",
    reply_text := some "Task ID: 5 do it", file_type := "audio",
    local_path := "f_c1", now := "t3" }

/-- A task already scheduled with a valid five-field expression. -/
def C2task : Task :=
  { id := 1, title := "T", description := "", file_path := "p",
    file_type := "audio", created_at := "t0",
    scheduled_cron := some "0 18 * * *" }

/-- State holding `C2task` together with its live trigger. -/
def C2state : BotState :=
  { db := { students := [], tasks := [C2task], submissions := [], settings := [] },
    files := [],
    jobs := [{ id := job_id_for 1,
               trigger := { minute := "0", hour := "18", day := "*", month := "*",
                            day_of_week := "*" },
               task_id := 1 }] }

/-- Inbound student event referencing the nonexistent task 999. -/
def C3event : InboundFile :=
  { sender_id := 77, sender_name := "Carol", caption := some "task: 999",
    reply_text := none, file_type := "voice", local_path := "f_c3", now := "t2" }

/-- The state after handling `C3event` from the fresh state. -/
def C3state : BotState := (handle_file none initialState C3event).1

/-- Inbound student event carrying no usable task reference. -/
def C5event : InboundFile :=
  { sender_id := 42, sender_name := "Alice", caption := some "hello",
    reply_text := none, file_type := "audio", local_path := "f_c5", now := "t1" }

/-- A three-student roster. -/
def C7students : List Student :=
  [{ chat_id := 1, name := "A", registered_at := "t" },
   { chat_id := 2, name := "B", registered_at := "t" },
   { chat_id := 3, name := "C", registered_at := "t" }]

/-- A task to broadcast. -/
def C7task : Task :=
  { id := 1, title := "T", description := "", file_path := "p",
    file_type := "audio", created_at := "t0", scheduled_cron := none }

/-- State with the three-student roster and one task. -/
def C7state : BotState :=
  { db := { students := C7students, tasks := [C7task], submissions := [],
            settings := [] },
    files := [], jobs := [] }

/-- Send outcomes where every sub-send to chat 2 raises and the rest
succeed. -/
def C7env : Int → SendKind → Bool := fun c _ => c != 2

/-- A task to schedule. -/
def C9task : Task :=
  { id := 3, title := "T", description := "", file_path := "p",
    file_type := "video", created_at := "t0", scheduled_cron := none }

/-- State with `C9task` and an empty roster. -/
def C9state : BotState :=
  { db := { students := [], tasks := [C9task], submissions := [], settings := [] },
    files := [], jobs := [] }

/-! ### Helper lemmas -/

/-- Splitting a list by a boolean predicate and recombining is a
permutation of the list. -/
theorem perm_filter_append {α : Type} (p : α → Bool) (l : List α) :
    (l.filter p ++ l.filter (fun a => !p a)).Perm l := by
  induction l with
  | nil => simp
  | cons a t ih =>
    by_cases h : p a
    · simpa [h] using ih.cons a
    · simp only [List.filter_cons, h, Bool.not_false, if_neg]
      simpa [h] using List.perm_middle.trans (ih.cons a)

/-- The boolean submission test agrees with the propositional one. -/
theorem has_submitted_iff (db : DB) (tid c : Int) :
    has_submitted db tid c = true ↔ HasSub db tid c := by
  simp [has_submitted, HasSub, List.any_eq_true]

/-- The completion flag of `attempt_sends` is the conjunction of the
individual sub-send outcomes. -/
theorem attempt_sends_snd (env : Int → SendKind → Bool) (chat : Int)
    (ops : List SendKind) :
    (attempt_sends env chat ops).2 = target_ok env ops chat := by
  induction ops with
  | nil => rfl
  | cons op rest ih =>
    by_cases h : env chat op <;> simp [attempt_sends, target_ok, h] <;>
      simpa [target_ok] using ih

/-- When every sub-send succeeds, the completed-send log of one target is
the full op list. -/
theorem attempt_sends_fst_of_ok (env : Int → SendKind → Bool) (chat : Int)
    (ops : List SendKind) (h : target_ok env ops chat = true) :
    (attempt_sends env chat ops).1 = ops.map (fun op => (chat, op)) := by
  induction ops with
  | nil => rfl
  | cons op rest ih =>
    simp only [target_ok, List.all_cons, Bool.and_eq_true] at h
    simp [attempt_sends, h.1, ih h.2]

/-- The `failed` list collects exactly the students with a failing
sub-send, in roster order. -/
theorem loop_send_failed (env : Int → SendKind → Bool) (ops : List SendKind)
    (students : List Student) :
    (loop_send env ops students).2 =
      (students.filter (fun s => !target_ok env ops s.chat_id)).map
        (fun s => s.chat_id) := by
  induction students with
  | nil => rfl
  | cons s rest ih =>
    by_cases h : target_ok env ops s.chat_id <;>
      simp [loop_send, attempt_sends_snd, h, ih]

/-- Every fully-successful target's sends all appear in the loop's log,
regardless of other targets' failures. -/
theorem loop_send_log (env : Int → SendKind → Bool) (ops : List SendKind)
    (students : List Student) :
    ∀ s ∈ students, target_ok env ops s.chat_id = true →
      ∀ op ∈ ops, (s.chat_id, op) ∈ (loop_send env ops students).1 := by
  induction students with
  | nil => intro s h; cases h
  | cons x rest ih =>
    intro s hs hok op hop
    rcases List.mem_cons.mp hs with rfl | hs
    · simp only [loop_send]
      refine List.mem_append_left _ ?_
      rw [attempt_sends_fst_of_ok env s.chat_id ops hok]
      exact List.mem_map.mpr ⟨op, hop, rfl⟩
    · simp only [loop_send]
      exact List.mem_append_right _ (ih s hs hok op hop)

/-- A schedule call with a valid five-field expression replaces the jobs
for the task id: old ones removed, the new trigger appended. -/
theorem cmd_schedule_jobs_of_valid (st : BotState) (tid : Int)
    (e m h d mo w : String)
    (hf : pySplit e = [m, h, d, mo, w])
    (hv : (validCronField m && validCronField h && validCronField d &&
           validCronField mo && validCronField w) = true) :
    (cmd_schedule_task st tid e).1.jobs =
      st.jobs.filter (fun j => j.id != job_id_for tid) ++
        [{ id := job_id_for tid, trigger := ⟨m, h, d, mo, w⟩, task_id := tid }] := by
  unfold cmd_schedule_task
  rw [hf]
  simp [hv]

/-- Scheduling never changes the students table. -/
theorem cmd_schedule_students_eq (st : BotState) (tid : Int) (e : String) :
    (cmd_schedule_task st tid e).1.db.students = st.db.students := by
  unfold cmd_schedule_task
  rcases pySplit e with _ | ⟨a, _ | ⟨b, _ | ⟨c, _ | ⟨d, _ | ⟨f, _ | ⟨g, r⟩⟩⟩⟩⟩⟩ <;>
    first
      | rfl
      | (dsimp only []; split <;> rfl)

/-- Scheduling only rewrites the task's recurrence field. -/
theorem cmd_schedule_tasks_eq (st : BotState) (tid : Int) (e : String) :
    (cmd_schedule_task st tid e).1.db.tasks =
      st.db.tasks.map (fun t =>
        if t.id == tid then { t with scheduled_cron := some e } else t) := by
  unfold cmd_schedule_task
  rcases pySplit e with _ | ⟨a, _ | ⟨b, _ | ⟨c, _ | ⟨d, _ | ⟨f, _ | ⟨g, r⟩⟩⟩⟩⟩⟩ <;>
    first
      | rfl
      | (dsimp only []; split <;> rfl)

/-- Registration never changes the tasks table. -/
theorem cmd_start_tasks_eq (env : Option String) (st : BotState) (uid : Int)
    (name now : String) :
    (cmd_start env st uid name now).1.db.tasks = st.db.tasks := by
  unfold cmd_start insert_or_ignore_student
  split
  · rfl
  · split <;> rfl

/-- A non-teacher sender's chat id is in the roster after registration. -/
theorem cmd_start_mem_students (env : Option String) (st : BotState) (uid : Int)
    (name now : String) (h : is_teacher_of env st.db uid = false) :
    uid ∈ (cmd_start env st uid name now).1.db.students.map (fun s => s.chat_id) := by
  unfold cmd_start insert_or_ignore_student
  rw [h]
  simp only [Bool.false_eq_true, if_false]
  by_cases hmem : st.db.students.any (fun x => x.chat_id == uid)
  · simp only [hmem, if_true]
    rcases List.any_eq_true.mp hmem with ⟨x, hx, hbe⟩
    exact List.mem_map.mpr ⟨x, hx, by simpa using hbe⟩
  · simp only [hmem, if_false]
    refine List.mem_map.mpr ?_
    exact ⟨⟨uid, name, now⟩, List.mem_append_right _ (List.mem_singleton_self _), rfl⟩

/-- When the task row exists at fire time, the firing broadcasts to the
roster read at fire time. -/
theorem fire_sent_of_exists (sendEnv : Int → SendKind → Bool) (st : BotState)
    (tid : Int) (hex : ∃ t ∈ st.db.tasks, t.id = tid) :
    (fire_scheduled_job sendEnv st tid).2.1 =
      .sent (st.db.students.map (fun s => s.chat_id)) := by
  obtain ⟨t, ht, hid⟩ := hex
  unfold fire_scheduled_job
  cases hf : st.db.tasks.find? (fun t => t.id == tid) with
  | none =>
    have := List.find?_eq_none.mp hf t ht
    simp [hid] at this
  | some task => rfl

/-! ### Claim theorems -/

/-- C1 counterexample: with caption `task: 7` (which parses to 7) and
reply text `Task ID: 5 do it`, the resolver yields 5, not 7 — the reply
signal is consulted and wins even though the caption yielded a parseable
integer. -/
theorem C1_counterexample :
    parse_caption_task_id "task: 7" = some 7 ∧
    resolve_task_id "task: 7" (some "Task ID: 5 do it") = some 5 := by decide

/-- C1 (amended): the caption signal is parsed first, but a reply-target
text whose marker and numeric token parse overrides the caption result:
the stored submission records the reply-derived id even when the caption
yielded a parseable integer. -/
theorem C1_theorem (env : Option String) (st : BotState) (m : InboundFile)
    (txt : String) (a b : Int)
    (ht : is_teacher_of env st.db m.sender_id = false)
    (hc : parse_caption_task_id (pyStrip (m.caption.getD "")) = some a)
    (hr : m.reply_text = some txt)
    (hb : parse_reply_task_id txt = some b)
    (hb0 : b ≠ 0) :
    (handle_file env st m).2 = .savedThanks ∧
    (handle_file env st m).1.db.submissions =
      st.db.submissions ++
        [{ id := next_submission_id st.db, task_id := b,
           student_chat_id := m.sender_id, file_path := m.local_path,
           file_type := m.file_type, submitted_at := m.now }] := by
  have hres : resolve_task_id (pyStrip (m.caption.getD "")) m.reply_text = some b := by
    rw [hr]
    simp [resolve_task_id, hb]
  simp [handle_file, ht, hres, hb0]

/-- C1 witness: the amended behavior on the concrete event `C1event`
(caption parses to 7, reply token is 5, submission stores 5). -/
theorem C1_theorem_witness :
    (handle_file none initialState C1event).2 = .savedThanks ∧
    (handle_file none initialState C1event).1.db.submissions =
      initialState.db.submissions ++
        [{ id := next_submission_id initialState.db, task_id := 5,
           student_chat_id := 42, file_path := "f_c1", file_type := "audio",
           submitted_at := "t3" }] :=
  C1_theorem none initialState C1event "Task ID: 5 do it" 7 5
    (by decide) (by decide) rfl (by decide) (by decide)

/-- C2 counterexample: scheduling task 1 with the three-field expression
`0 18 *` reports the field-count error, yet the task's persisted
recurrence expression has changed and the previously live trigger has been
removed. -/
theorem C2_counterexample :
    (cmd_schedule_task C2state 1 "0 18 *").2 = .wrongFieldCount ∧
    (cmd_schedule_task C2state 1 "0 18 *").1.db.tasks =
      [{ C2task with scheduled_cron := some "0 18 *" }] ∧
    C2task.scheduled_cron ≠ some "0 18 *" ∧
    (cmd_schedule_task C2state 1 "0 18 *").1.jobs = [] ∧
    C2state.jobs ≠ [] := by decide

/-- C2 (amended): when the expression does not split into exactly five
fields the operation fails with the field-count error, but only after
persisting the invalid expression on the task and removing any previously
installed trigger for the task id — the task is left silently inert. -/
theorem C2_theorem (st : BotState) (tid : Int) (expr : String)
    (h : (pySplit expr).length ≠ 5) :
    (cmd_schedule_task st tid expr).2 = .wrongFieldCount ∧
    (cmd_schedule_task st tid expr).1.db.tasks =
      st.db.tasks.map (fun t =>
        if t.id == tid then { t with scheduled_cron := some expr } else t) ∧
    (cmd_schedule_task st tid expr).1.jobs =
      st.jobs.filter (fun j => j.id != job_id_for tid) := by
  rcases hs : pySplit expr with _ | ⟨f1, _ | ⟨f2, _ | ⟨f3, _ | ⟨f4, _ | ⟨f5, _ | ⟨f6, rest⟩⟩⟩⟩⟩⟩ <;>
    simp_all [cmd_schedule_task]

/-- C2 witness: the amended behavior on the concrete state `C2state`. -/
theorem C2_theorem_witness :
    (cmd_schedule_task C2state 1 "0 18 *").2 = .wrongFieldCount ∧
    (cmd_schedule_task C2state 1 "0 18 *").1.db.tasks =
      C2state.db.tasks.map (fun t =>
        if t.id == (1 : Int) then { t with scheduled_cron := some "0 18 *" } else t) ∧
    (cmd_schedule_task C2state 1 "0 18 *").1.jobs =
      C2state.jobs.filter (fun j => j.id != job_id_for 1) :=
  C2_theorem C2state 1 "0 18 *" (by decide)

/-- C3 counterexample: from the fresh state, one inbound student event
with caption `task: 999` reaches a state whose stored submission
references a nonexistent task and an unregistered sender. -/
theorem C3_counterexample :
    Reachable none C3state ∧ ¬ SubmissionIntegrity C3state := by
  constructor
  · exact Reachable.inbound initialState C3event Reachable.init
  · intro hint
    have h := hint
      { id := 1, task_id := 999, student_chat_id := 77, file_path := "f_c3",
        file_type := "voice", submitted_at := "t2" } (by decide)
    rcases h.1 with ⟨t, ht, _⟩
    rw [show C3state.db.tasks = [] from rfl] at ht
    exact absurd ht (List.not_mem_nil t)

/-- C3 (amended): a resolved student submission is stored verbatim with
the resolved task id and the sender's identifier, with no check that the
task exists or that the sender is a registered student. -/
theorem C3_theorem (env : Option String) (st : BotState) (m : InboundFile)
    (n : Int)
    (ht : is_teacher_of env st.db m.sender_id = false)
    (hres : resolve_task_id (pyStrip (m.caption.getD "")) m.reply_text = some n)
    (hn : n ≠ 0) :
    (handle_file env st m).1.db.submissions =
      st.db.submissions ++
        [{ id := next_submission_id st.db, task_id := n,
           student_chat_id := m.sender_id, file_path := m.local_path,
           file_type := m.file_type, submitted_at := m.now }] := by
  simp [handle_file, ht, hres, hn]

/-- C3 witness: the amended behavior on the concrete event `C3event`. -/
theorem C3_theorem_witness :
    (handle_file none initialState C3event).1.db.submissions =
      initialState.db.submissions ++
        [{ id := next_submission_id initialState.db, task_id := 999,
           student_chat_id := 77, file_path := "f_c3",
           file_type := "voice", submitted_at := "t2" }] :=
  C3_theorem none initialState C3event 999 (by decide) (by decide) (by decide)

/-- C4 counterexample: scheduling nonexistent task 5 from the fresh state
succeeds and installs a live trigger instead of surfacing a not-found
failure. -/
theorem C4_counterexample :
    initialState.db.tasks = [] ∧
    (cmd_schedule_task initialState 5 "0 18 * * *").2 = .scheduled ∧
    (cmd_schedule_task initialState 5 "0 18 * * *").1.jobs =
      [{ id := job_id_for 5,
         trigger := { minute := "0", hour := "18", day := "*", month := "*",
                      day_of_week := "*" },
         task_id := 5 }] := by decide

/-- C4 (amended): scheduling a task id that names no task does not surface
any not-found failure: the persist update matches no row, a recurring
trigger keyed by the task id is installed anyway, the caller is told the
task was scheduled, and the absent task is only reported (as a logged
missing-task firing) at fire time. -/
theorem C4_theorem (st : BotState) (tid : Int) (expr m h d mo w : String)
    (hnone : st.db.tasks.find? (fun t => t.id == tid) = none)
    (hf : pySplit expr = [m, h, d, mo, w])
    (hv : (validCronField m && validCronField h && validCronField d &&
           validCronField mo && validCronField w) = true) :
    (cmd_schedule_task st tid expr).2 = .scheduled ∧
    (cmd_schedule_task st tid expr).1.db.tasks = st.db.tasks ∧
    (∃ j ∈ (cmd_schedule_task st tid expr).1.jobs, j.id = job_id_for tid) ∧
    (∀ sendEnv : Int → SendKind → Bool,
      (fire_scheduled_job sendEnv (cmd_schedule_task st tid expr).1 tid).2.1 =
        .missingLogged) := by
  have habs : ∀ t ∈ st.db.tasks, (t.id == tid) = false := by
    intro t htm
    have := List.find?_eq_none.mp hnone t htm
    simpa using this
  have htasks : st.db.tasks.map (fun t =>
      if t.id == tid then { t with scheduled_cron := some expr } else t) =
        st.db.tasks := by
    rw [show st.db.tasks.map (fun t =>
        if t.id == tid then { t with scheduled_cron := some expr } else t) =
          st.db.tasks.map id from List.map_congr_left (by
      intro t htm
      simp [habs t htm])]
    exact List.map_id _
  have hstep : cmd_schedule_task st tid expr =
      ({ st with
          db := { st.db with tasks := st.db.tasks.map (fun t =>
            if t.id == tid then { t with scheduled_cron := some expr } else t) },
          jobs := st.jobs.filter (fun j => j.id != job_id_for tid) ++
            [{ id := job_id_for tid, trigger := ⟨m, h, d, mo, w⟩,
               task_id := tid }] },
        .scheduled) := by
    unfold cmd_schedule_task
    rw [hf]
    simp [hv]
  rw [hstep]
  refine ⟨rfl, htasks,
    ⟨_, List.mem_append_right _ (List.mem_singleton_self _), rfl⟩, ?_⟩
  intro sendEnv
  show (fire_scheduled_job sendEnv _ tid).2.1 = FireResult.missingLogged
  unfold fire_scheduled_job
  simp only [htasks, hnone]

/-- C4 witness: the amended behavior on the fresh state and task id 5. -/
theorem C4_theorem_witness :
    (cmd_schedule_task initialState 5 "0 18 * * *").2 = .scheduled ∧
    (fire_scheduled_job (fun _ _ => true)
      (cmd_schedule_task initialState 5 "0 18 * * *").1 5).2.1 = .missingLogged :=
  ⟨(C4_theorem initialState 5 "0 18 * * *" "0" "18" "*" "*" "*"
      rfl (by decide) (by decide)).1,
    (C4_theorem initialState 5 "0 18 * * *" "0" "18" "*" "*" "*"
      rfl (by decide) (by decide)).2.2.2 (fun _ _ => true)⟩

/-- C5 counterexample: on the unresolvable event `C5event` the sender is
prompted and no submission is stored, but the inbound artifact HAS been
stored: the file list grew by the downloaded file. -/
theorem C5_counterexample :
    (handle_file none initialState C5event).2 = .ambiguousPrompt ∧
    (handle_file none initialState C5event).1.db.submissions = [] ∧
    initialState.files = [] ∧
    (handle_file none initialState C5event).1.files = ["f_c5"] := by decide

/-- C5 (amended): when neither signal yields a usable task id for a
non-teacher sender, no submission record is stored and the sender is
prompted to retry, but the inbound artifact has already been saved to the
file store before resolution and remains stored. -/
theorem C5_theorem (env : Option String) (st : BotState) (m : InboundFile)
    (ht : is_teacher_of env st.db m.sender_id = false)
    (hres : resolve_task_id (pyStrip (m.caption.getD "")) m.reply_text = none ∨
      resolve_task_id (pyStrip (m.caption.getD "")) m.reply_text = some 0) :
    handle_file env st m =
      ({ st with files := st.files ++ [m.local_path] }, .ambiguousPrompt) := by
  rcases hres with h | h <;> simp [handle_file, ht, h]

/-- C5 witness: the amended behavior on the concrete event `C5event`. -/
theorem C5_theorem_witness :
    handle_file none initialState C5event =
      ({ initialState with files := initialState.files ++ ["f_c5"] },
        .ambiguousPrompt) :=
  C5_theorem none initialState C5event (by decide) (Or.inl (by decide))

/-- C6: for every database and task id, `cmd_stats` partitions the roster:
the submitted and not-submitted chat ids together are a permutation of the
full roster's chat ids, membership in `submitted` is equivalent to being a
registered student with at least one submission for the task, membership
in `not_submitted` is the complement, and no chat id is in both. -/
theorem C6_theorem (db : DB) (tid : Int) :
    ((stats_submitted db tid).map (fun x => x.1) ++
        (stats_not_submitted db tid).map (fun x => x.1)).Perm
      (db.students.map (fun s => s.chat_id)) ∧
    (∀ c : Int, c ∈ (stats_submitted db tid).map (fun x => x.1) ↔
      ((∃ s ∈ db.students, s.chat_id = c) ∧ HasSub db tid c)) ∧
    (∀ c : Int, c ∈ (stats_not_submitted db tid).map (fun x => x.1) ↔
      ((∃ s ∈ db.students, s.chat_id = c) ∧ ¬ HasSub db tid c)) ∧
    (∀ c : Int, ¬ (c ∈ (stats_submitted db tid).map (fun x => x.1) ∧
      c ∈ (stats_not_submitted db tid).map (fun x => x.1))) := by
  have hsub : ∀ c : Int, c ∈ (stats_submitted db tid).map (fun x => x.1) ↔
      ((∃ s ∈ db.students, s.chat_id = c) ∧ HasSub db tid c) := by
    intro c
    simp only [stats_submitted, List.map_map, List.mem_map, Function.comp,
      List.mem_filter]
    constructor
    · rintro ⟨s, ⟨hs, hp⟩, rfl⟩
      exact ⟨⟨s, hs, rfl⟩, (has_submitted_iff db tid s.chat_id).mp hp⟩
    · rintro ⟨⟨s, hs, rfl⟩, hhs⟩
      exact ⟨s, ⟨hs, (has_submitted_iff db tid s.chat_id).mpr hhs⟩, rfl⟩
  have hns : ∀ c : Int, c ∈ (stats_not_submitted db tid).map (fun x => x.1) ↔
      ((∃ s ∈ db.students, s.chat_id = c) ∧ ¬ HasSub db tid c) := by
    intro c
    simp only [stats_not_submitted, List.map_map, List.mem_map, Function.comp,
      List.mem_filter]
    constructor
    · rintro ⟨s, ⟨hs, hp⟩, rfl⟩
      refine ⟨⟨s, hs, rfl⟩, ?_⟩
      intro hhs
      have := (has_submitted_iff db tid s.chat_id).mpr hhs
      simp [this] at hp
    · rintro ⟨⟨s, hs, rfl⟩, hhs⟩
      refine ⟨s, ⟨hs, ?_⟩, rfl⟩
      cases hh : has_submitted db tid s.chat_id
      · rfl
      · exact absurd ((has_submitted_iff db tid s.chat_id).mp hh) hhs
  refine ⟨?_, hsub, hns, ?_⟩
  · have hperm : ((db.students.filter (fun s => has_submitted db tid s.chat_id)) ++
        (db.students.filter (fun s => !has_submitted db tid s.chat_id))).Perm
        db.students :=
      perm_filter_append _ _
    have hmap := hperm.map (fun s : Student => s.chat_id)
    simpa [stats_submitted, stats_not_submitted, List.map_map, Function.comp]
      using hmap
  · intro c ⟨h1, h2⟩
    exact ((hns c).mp h2).2 ((hsub c).mp h1).2

/-- C7: in the broadcast loop, the failed list is exactly the students
with a failing sub-send in roster order; the reported delivered count
equals the roster size minus the failed count, which is the number of
fully-delivered targets; every fully-successful target receives all its
sub-sends regardless of other targets' failures; and the teacher reply
reports exactly these counts. -/
theorem C7_theorem :
    (∀ (env : Int → SendKind → Bool) (ops : List SendKind)
        (students : List Student),
      (loop_send env ops students).2 =
        (students.filter (fun s => !target_ok env ops s.chat_id)).map
          (fun s => s.chat_id)) ∧
    (∀ (env : Int → SendKind → Bool) (ops : List SendKind)
        (students : List Student),
      ((students.length : Int) - ((loop_send env ops students).2).length) =
        ((students.filter (fun s => target_ok env ops s.chat_id)).length : Int)) ∧
    (∀ (env : Int → SendKind → Bool) (ops : List SendKind)
        (students : List Student) (s : Student), s ∈ students →
      target_ok env ops s.chat_id = true →
      ∀ op ∈ ops, (s.chat_id, op) ∈ (loop_send env ops students).1) ∧
    (∀ (env : Int → SendKind → Bool) (st : BotState) (tid : Int) (task : Task),
      st.db.tasks.find? (fun t => t.id == tid) = some task →
      (cmd_send_task_all env st tid).1 =
        .broadcastResult
          ((st.db.students.length : Int) -
            ((loop_send env (target_ops task.file_type) st.db.students).2).length)
          ((loop_send env (target_ops task.file_type) st.db.students).2).length) := by
  refine ⟨loop_send_failed, ?_, loop_send_log, ?_⟩
  · intro env ops students
    rw [loop_send_failed, List.length_map]
    have hperm := (perm_filter_append
      (fun s : Student => target_ok env ops s.chat_id) students).length_eq
    rw [List.length_append] at hperm
    omega
  · intro env st tid task hfind
    unfold cmd_send_task_all
    rw [hfind]

/-- C7 witness: with roster {1,2,3} and every send to chat 2 failing, the
failed list is [2], delivered is 2, chat 1 still receives its announcement,
and the reported result is delivered=2, failed=1; the empty-roster case
gives delivered=0, failed=0. -/
theorem C7_theorem_witness :
    ((loop_send C7env (target_ops "audio") C7students).2 = [2]) ∧
    ((3 : Int) - ((loop_send C7env (target_ops "audio") C7students).2).length = 2) ∧
    ((1, SendKind.textMsg) ∈ (loop_send C7env (target_ops "audio") C7students).1) ∧
    ((cmd_send_task_all C7env C7state 1).1 = .broadcastResult 2 1) ∧
    ((loop_send C7env (target_ops "audio") []).2 = []) := by
  refine ⟨?_, ?_, ?_, ?_, ?_⟩
  · rw [C7_theorem.1 C7env (target_ops "audio") C7students]; decide
  · rw [C7_theorem.1 C7env (target_ops "audio") C7students]; decide
  · exact C7_theorem.2.2.1 C7env (target_ops "audio") C7students
      { chat_id := 1, name := "A", registered_at := "t" } (by decide) (by decide)
      SendKind.textMsg (by decide)
  · rw [C7_theorem.2.2.2 C7env C7state 1 C7task (by decide)]; decide
  · rw [C7_theorem.1 C7env (target_ops "audio") []]; decide

/-- C8: scheduling the same task twice with valid five-field expressions
leaves exactly one live trigger for the task id — the one built from the
second expression; the first call's trigger has been removed. -/
theorem C8_theorem (st : BotState) (tid : Int) (e1 e2 : String)
    (m1 h1 d1 mo1 w1 m2 h2 d2 mo2 w2 : String)
    (hf1 : pySplit e1 = [m1, h1, d1, mo1, w1])
    (hv1 : (validCronField m1 && validCronField h1 && validCronField d1 &&
            validCronField mo1 && validCronField w1) = true)
    (hf2 : pySplit e2 = [m2, h2, d2, mo2, w2])
    (hv2 : (validCronField m2 && validCronField h2 && validCronField d2 &&
            validCronField mo2 && validCronField w2) = true) :
    ((cmd_schedule_task (cmd_schedule_task st tid e1).1 tid e2).1.jobs.filter
        (fun j => j.id == job_id_for tid)) =
      [{ id := job_id_for tid, trigger := ⟨m2, h2, d2, mo2, w2⟩,
         task_id := tid }] := by
  rw [cmd_schedule_jobs_of_valid _ tid e2 m2 h2 d2 mo2 w2 hf2 hv2,
      cmd_schedule_jobs_of_valid st tid e1 m1 h1 d1 mo1 w1 hf1 hv1]
  simp [List.filter_append, List.filter_filter]

/-- C8 witness: scheduling task 1 with `0 18 * * *` then `30 7 * * 1`
leaves exactly the second trigger. -/
theorem C8_theorem_witness :
    ((cmd_schedule_task (cmd_schedule_task initialState 1 "0 18 * * *").1
        1 "30 7 * * 1").1.jobs.filter (fun j => j.id == job_id_for 1)) =
      [{ id := job_id_for 1,
         trigger := { minute := "30", hour := "7", day := "*", month := "*",
                      day_of_week := "1" },
         task_id := 1 }] :=
  C8_theorem initialState 1 "0 18 * * *" "30 7 * * 1"
    "0" "18" "*" "*" "*" "30" "7" "*" "*" "1"
    (by decide) (by decide) (by decide) (by decide)

/-- C9: a scheduled firing reads the task and roster at fire time — a
recipient registered after scheduling but before the firing is included in
the firing's broadcast; a recipient absent from the roster at fire time is
never targeted; and a firing whose task no longer exists reports
missing-logged, leaves the whole state (including the live jobs)
unchanged, and sends nothing. -/
theorem C9_theorem :
    (∀ (sendEnv : Int → SendKind → Bool) (env : Option String) (st : BotState)
        (tid : Int) (expr : String) (uid : Int) (name now : String),
      (∃ t ∈ st.db.tasks, t.id = tid) →
      is_teacher_of env (cmd_schedule_task st tid expr).1.db uid = false →
      (fire_scheduled_job sendEnv
          (cmd_start env (cmd_schedule_task st tid expr).1 uid name now).1 tid).2.1 =
        .sent (List.map (fun s => s.chat_id)
          (cmd_start env (cmd_schedule_task st tid expr).1 uid name now).1.db.students) ∧
      uid ∈ List.map (fun s => s.chat_id)
        (cmd_start env (cmd_schedule_task st tid expr).1 uid name now).1.db.students) ∧
    (∀ (sendEnv : Int → SendKind → Bool) (st : BotState) (tid uid : Int),
      (∀ s ∈ st.db.students, s.chat_id ≠ uid) →
      ∀ targets, (fire_scheduled_job sendEnv st tid).2.1 = .sent targets →
        uid ∉ targets) ∧
    (∀ (sendEnv : Int → SendKind → Bool) (st : BotState) (tid : Int),
      st.db.tasks.find? (fun t => t.id == tid) = none →
      fire_scheduled_job sendEnv st tid = (st, .missingLogged, [])) := by
  refine ⟨?_, ?_, ?_⟩
  · intro sendEnv env st tid expr uid name now hex hteach
    have hex2 : ∃ t ∈ (cmd_start env (cmd_schedule_task st tid expr).1
        uid name now).1.db.tasks, t.id = tid := by
      rw [cmd_start_tasks_eq, cmd_schedule_tasks_eq]
      obtain ⟨t, ht, hid⟩ := hex
      refine ⟨if t.id == tid then { t with scheduled_cron := some expr } else t,
        List.mem_map.mpr ⟨t, ht, rfl⟩, ?_⟩
      by_cases h : t.id == tid <;> simp [h, hid]
    refine ⟨?_, cmd_start_mem_students env _ uid name now hteach⟩
    exact fire_sent_of_exists sendEnv _ tid hex2
  · intro sendEnv st tid uid hnone targets hsent hmem
    unfold fire_scheduled_job at hsent
    cases hf : st.db.tasks.find? (fun t => t.id == tid) with
    | none => rw [hf] at hsent; cases hsent
    | some task =>
      rw [hf] at hsent
      cases hsent
      rcases List.mem_map.mp hmem with ⟨s, hs, hchat⟩
      exact hnone s hs hchat
  · intro sendEnv st tid hf
    unfold fire_scheduled_job
    rw [hf]

/-- C9 witness: student 42 registered after task 3 was scheduled is
targeted by the firing; no one is targeted from an empty roster; and a
firing for a task id with no task row returns the state unchanged with the
missing-logged report. -/
theorem C9_theorem_witness :
    ((fire_scheduled_job (fun _ _ => true)
        (cmd_start (some "1") (cmd_schedule_task C9state 3 "0 18 * * *").1
          42 "N" "t1").1 3).2.1 =
      .sent (List.map (fun s => s.chat_id)
        (cmd_start (some "1") (cmd_schedule_task C9state 3 "0 18 * * *").1
          42 "N" "t1").1.db.students) ∧
      (42 : Int) ∈ List.map (fun s => s.chat_id)
        (cmd_start (some "1") (cmd_schedule_task C9state 3 "0 18 * * *").1
          42 "N" "t1").1.db.students) ∧
    ((42 : Int) ∉ ([] : List Int)) ∧
    (fire_scheduled_job (fun _ _ => true) initialState 3 =
      (initialState, .missingLogged, [])) := by
  refine ⟨?_, ?_, ?_⟩
  · exact C9_theorem.1 (fun _ _ => true) (some "1") C9state 3 "0 18 * * *"
      42 "N" "t1" ⟨C9task, List.mem_singleton_self _, rfl⟩ (by decide)
  · exact C9_theorem.2.1 (fun _ _ => true) C9state 3 42
      (by intro s hs; cases hs) [] (by decide)
  · exact C9_theorem.2.2 (fun _ _ => true) initialState 3 rfl

/-- C10: a registration request whose sender identifier equals the
configured teacher identifier leaves the whole state unchanged — no
student row is inserted — and the sender only gets the teacher notice. -/
theorem C10_theorem (env : Option String) (st : BotState) (uid : Int)
    (name now s : String)
    (hcfg : effective_teacher env st.db = some s)
    (hid : toString uid = s) :
    cmd_start env st uid name now = (st, .teacherInfo) := by
  have h : is_teacher_of env st.db uid = true := by
    simp [is_teacher_of, hcfg, hid]
  simp [cmd_start, h]

/-- C10 witness: the configured teacher 42 registering leaves the fresh
state unchanged. -/
theorem C10_theorem_witness :
    cmd_start (some "42") initialState 42 "T" "t0" = (initialState, .teacherInfo) :=
  C10_theorem (some "42") initialState 42 "T" "t0" "42" rfl (by decide)

end TelegramTeacherBot
